import Mathlib

/-!
Shallow embedding of the Vogels MotionMount BLE protocol engine, translated
from custom_components/vogels_motion_mount_ble/api.py and client.py.
Bytes are modelled as Nat values in 0..255, byte strings as List Nat, and the
Python dataclasses as Lean structures.  Device names are represented by their
UTF-8 byte sequences (Python str.encode("utf-8") / bytes.decode("utf-8") are
mutually inverse on valid data, and the protocol only strips NUL bytes, which
never occur inside a multi-byte UTF-8 sequence).
-/

namespace VogelsMotionMount

/-- Big-endian unsigned decode, as Python int.from_bytes(data, "big"). -/
def fromBytesBE (bs : List Nat) : Nat :=
  bs.foldl (fun acc b => acc * 256 + b) 0

/-- Encoding int(x).to_bytes(2, byteorder="big") of a value below 2^16. -/
def toBytes2BE (x : Nat) : List Nat :=
  [x / 256 % 256, x % 256]

/-- Encoding int(x).to_bytes(2, byteorder="big", signed=True): two's
complement on 16 bits. -/
def toBytes2BESigned (x : Int) : List Nat :=
  toBytes2BE (x % 65536).toNat

/-- Decode int.from_bytes(bs, "big", signed=True) of a 2-byte payload. -/
def fromBytes2BESigned (bs : List Nat) : Int :=
  let u := fromBytesBE bs
  if u < 32768 then (u : Int) else (u : Int) - 65536

/-- Pin tiers, from api.py VogelsMotionMountPinType. -/
inductive VogelsMotionMountPinType
  | Authorized_user
  | Supervisior
deriving DecidableEq, Repr

/-- Translation of api.py API._encode_pin: low = pin & 0xFF,
high = (pin >> 8) & 0xFF, and for the Supervisior tier the high byte becomes
(high + 0x40) & 0xFF. -/
def encode_pin (pin : Nat) (mode : VogelsMotionMountPinType) : List Nat :=
  let low := pin &&& 0xFF
  let high := (pin >>> 8) &&& 0xFF
  match mode with
  | .Supervisior => [low, (high + 0x40) &&& 0xFF]
  | .Authorized_user => [low, high]

/-- Translation of client.py _encode_supervisior_pin, keeping Python operator
precedence: in `(pin >> 8) & 0xFF + 0x40` the addition binds tighter than `&`,
so the second byte is ((pin >> 8) & (0xFF + 0x40)) & 0xFF. -/
def encode_supervisior_pin (pin : Nat) : List Nat :=
  [pin &&& 0xFF, ((pin >>> 8) &&& (0xFF + 0x40)) &&& 0xFF]

/-- Payload written by api.py set_distance:
int(distance).to_bytes(2, byteorder="big"). -/
def encode_distance (distance : Nat) : List Nat :=
  toBytes2BE distance

/-- Decode performed by api.py _handle_distance_change:
int.from_bytes(data, "big"). -/
def decode_distance (data : List Nat) : Nat :=
  fromBytesBE data

/-- Payload written by api.py set_rotation:
int(rotation).to_bytes(2, byteorder="big", signed=True). -/
def encode_rotation (rotation : Int) : List Nat :=
  toBytes2BESigned rotation

/-- Decode performed by api.py _handle_rotation_change on a rotation payload:
int.from_bytes(data, "big"), an unsigned decode. -/
def decode_rotation_notify (data : List Nat) : Int :=
  (fromBytesBE data : Int)

/-- Translation of the api.py MultiPinFeatures dataclass. -/
structure MultiPinFeatures where
  change_presets : Bool
  change_name : Bool
  disable_channel : Bool
  change_tv_on_off_detection : Bool
  change_default_position : Bool
  start_calibration : Bool
deriving DecidableEq, Repr

/-- Bitmask assembled by api.py set_multi_pin_features (and client.py
set_multi_pin_features): value |= int(flag) << bit for bits 0..4 and 7. -/
def multi_pin_value (f : MultiPinFeatures) : Nat :=
  (f.change_presets.toNat <<< 0) |||
  (f.change_name.toNat <<< 1) |||
  (f.disable_channel.toNat <<< 2) |||
  (f.change_tv_on_off_detection.toNat <<< 3) |||
  (f.change_default_position.toNat <<< 4) |||
  (f.start_calibration.toNat <<< 7)

/-- Decode performed by api.py _read_multi_pin_features on the first payload
byte: each field is bool(value & (1 << bit)). -/
def decode_multi_pin_features (value : Nat) : MultiPinFeatures :=
  { change_presets := (value &&& (1 <<< 0)) != 0
  , change_name := (value &&& (1 <<< 1)) != 0
  , disable_channel := (value &&& (1 <<< 2)) != 0
  , change_tv_on_off_detection := (value &&& (1 <<< 3)) != 0
  , change_default_position := (value &&& (1 <<< 4)) != 0
  , start_calibration := (value &&& (1 <<< 7)) != 0 }

/-- Python expression `arg or cached` for arg of type (bool | None): None and
False are falsy, so the cached value is used unless arg is True. -/
def orFallback (arg : Option Bool) (cached : Bool) : Bool :=
  match arg with
  | some true => true
  | _ => cached

/-- Fallback features built by api.py set_multi_pin_features when no cached
value exists: MultiPinFeatures with every field False. -/
def defaultMultiPinFeatures : MultiPinFeatures :=
  ⟨false, false, false, false, false, false⟩

/-- Bitmask byte written by api.py set_multi_pin_features, given the cached
features (self._data.multi_pin_features) and the six optional arguments:
each new flag is `argument or cached` and the flags are assembled into the
value with bits 0..4 and 7. -/
def set_multi_pin_features_value (cached : Option MultiPinFeatures)
    (change_presets change_name disable_channel change_tv_on_off_detection
      change_default_position start_calibration : Option Bool) : Nat :=
  let f := cached.getD defaultMultiPinFeatures
  multi_pin_value
    { change_presets := orFallback change_presets f.change_presets
    , change_name := orFallback change_name f.change_name
    , disable_channel := orFallback disable_channel f.disable_channel
    , change_tv_on_off_detection :=
        orFallback change_tv_on_off_detection f.change_tv_on_off_detection
    , change_default_position :=
        orFallback change_default_position f.change_default_position
    , start_calibration := orFallback start_calibration f.start_calibration }

/-- Translation of the api.py VogelsMotionMountPreset dataclass; the name is
modelled by its UTF-8 bytes. -/
structure VogelsMotionMountPreset where
  index : Nat
  name : List Nat
  distance : Nat
  rotation : Int
deriving DecidableEq, Repr

/-- Trailing NUL stripping, as Python .rstrip("\x00") acting on the UTF-8
bytes of the decoded string. -/
def stripTrailingZeros (bs : List Nat) : List Nat :=
  (bs.reverse.dropWhile (fun b => b == 0)).reverse

/-- Decode performed by api.py _read_preset (and client.py read_preset) on the
combined payload data1 + data2: the slot is empty when byte 0 is 0; otherwise
distance is bytes 1..2 clamped to 0..100, rotation is signed bytes 3..4
clamped to -100..100, and the name is the rest with trailing NUL bytes
stripped.  The source indexes data[0] directly, presupposing a nonempty
payload (the characteristic is 20 bytes); this is modelled by the explicit
head match. -/
def decode_preset (preset_index : Nat) (data1 data2 : List Nat) :
    Option VogelsMotionMountPreset :=
  let data := data1 ++ data2
  match data with
  | [] => none
  | b :: _ =>
    if b ≠ 0 then
      some
        { index := preset_index
        , name := stripTrailingZeros (data.drop 5)
        , distance := max 0 (min (fromBytesBE ((data.drop 1).take 2)) 100)
        , rotation :=
            max (-100) (min (fromBytes2BESigned ((data.drop 3).take 2)) 100) }
    else none

/-- Translation of api.py VogelsMotionMountAuthenticationType. -/
inductive VogelsMotionMountAuthenticationType
  | Wrong
  | Missing
  | Control
  | Full
deriving DecidableEq, Repr

/-- Python struct.unpack("<I", data): 4-byte little-endian unsigned decode,
raising struct.error (none here) unless the payload is exactly 4 bytes. -/
def unpackLEU32 (bs : List Nat) : Option Nat :=
  match bs with
  | [b0, b1, b2, b3] => some (b0 + 256 * b1 + 65536 * b2 + 16777216 * b3)
  | _ => none

/-- Outcome of api.py _check_authentication: the returned boolean, the
auth_type written through _update (if any), and the new value of
self._authentication_cooldown (if set). -/
structure CheckAuthOutcome where
  ok : Bool
  new_auth_type : Option VogelsMotionMountAuthenticationType
  new_cooldown : Option Int
deriving DecidableEq, Repr

/-- Translation of api.py _check_authentication acting on the payload read
from the pin-check characteristic; none models the struct.error escape on a
payload that is neither 0x80-led nor exactly 4 bytes. -/
def check_authentication (payload : List Nat) : Option CheckAuthOutcome :=
  if payload.take 2 = [0x80, 0x80] then
    some ⟨true, some .Full, none⟩
  else if payload.take 1 = [0x80] then
    some ⟨true, some .Control, none⟩
  else
    match unpackLEU32 payload with
    | some code => some ⟨false, none, some (max 0 (3 * (code : Int) - 10))⟩
    | none => none

/-- Result of api.py _authenticate_as: the returned boolean, the number of
_check_authentication attempts performed, the number of 100ms sleeps
performed, and the pin type stored into self._pin_type (if any). -/
structure AuthenticateAsResult where
  success : Bool
  checks : Nat
  sleeps : Nat
  stored_pin_type : Option VogelsMotionMountPinType
deriving DecidableEq, Repr

/-- Loop body of api.py _authenticate_as over the remaining attempt indices
of range(4); outcomes i is the device's answer to the i-th
_check_authentication, and asyncio.sleep(0.1) runs after a failed attempt
with attempt < 3.  Returns (success, checks, sleeps). -/
def authenticateAsGo (outcomes : Nat → Bool) : List Nat → Bool × Nat × Nat
  | [] => (false, 0, 0)
  | attempt :: rest =>
    if outcomes attempt then (true, 1, 0)
    else
      let r := authenticateAsGo outcomes rest
      (r.1, r.2.1 + 1, r.2.2 + (if attempt < 3 then 1 else 0))

/-- Translation of api.py _authenticate_as: with no pin it returns False
before any check; otherwise it writes the encoded pin, then polls
_check_authentication over range(4) with a 100ms sleep between consecutive
attempts, storing the pin type as remembered on success. -/
def authenticate_as (pin : Option Nat) (t : VogelsMotionMountPinType)
    (outcomes : Nat → Bool) : AuthenticateAsResult :=
  match pin with
  | none => ⟨false, 0, 0, none⟩
  | some _ =>
    let r := authenticateAsGo outcomes [0, 1, 2, 3]
    ⟨r.1, r.2.1, r.2.2, if r.1 then some t else none⟩

/-- Translation of api.py VogelsMotionMountAutoMoveType. -/
inductive VogelsMotionMountAutoMoveType
  | Off
  | Hdmi_1
  | Hdmi_2
  | Hdmi_3
  | Hdmi_4
  | Hdmi_5
deriving DecidableEq, Repr

/-- Translation of api.py VogelsMotionMountPinSettings. -/
inductive VogelsMotionMountPinSettings
  | Deactivated
  | Single
  | Multi
deriving DecidableEq, Repr

/-- Translation of the api.py VogelsMotionMountData dataclass; names and
version strings are modelled by their raw bytes, the preset dict by an
association list keyed by slot index. -/
structure VogelsMotionMountData where
  connected : Bool := false
  name : Option (List Nat) := none
  distance : Option Nat := none
  rotation : Option Int := none
  requested_distance : Option Int := none
  requested_rotation : Option Int := none
  presets : List (Nat × Option VogelsMotionMountPreset) := []
  width : Option Nat := none
  freeze_preset_index : Option Nat := none
  automove_type : Option VogelsMotionMountAutoMoveType := none
  automove_id : Option Nat := none
  pin_setting : Option VogelsMotionMountPinSettings := none
  ceb_bl_version : Option (List Nat) := none
  mcp_hw_version : Option (List Nat) := none
  mcp_bl_version : Option (List Nat) := none
  mcp_fw_version : Option (List Nat) := none
  multi_pin_features : Option MultiPinFeatures := none
  auth_type : Option VogelsMotionMountAuthenticationType := none
deriving DecidableEq, Repr

/-- Translation of api.py VogelsMotionMountActionType. -/
inductive VogelsMotionMountActionType
  | Control
  | Settings
deriving DecidableEq, Repr

/-- Translation of api.py SettingsRequestType. -/
inductive SettingsRequestType
  | change_presets
  | change_name
  | disable_channel
  | change_tv_on_off_detection
  | change_default_position
  | start_calibration
deriving DecidableEq, Repr

/-- Translation of api.py API.has_permission. -/
def has_permission (d : VogelsMotionMountData)
    (action_type : VogelsMotionMountActionType)
    (settings_request_type : Option SettingsRequestType) : Bool :=
  if d.auth_type = some .Full then true
  else if d.auth_type = some .Control ∧ action_type = .Control then true
  else if d.auth_type = some .Control then
    match d.multi_pin_features with
    | none => false
    | some f =>
      match settings_request_type with
      | some .change_presets => f.change_presets
      | some .change_name => f.change_name
      | some .disable_channel => f.disable_channel
      | some .change_tv_on_off_detection => f.change_tv_on_off_detection
      | some .change_default_position => f.change_default_position
      | some .start_calibration => f.start_calibration
      | none => false
  else false

/-- Projection of a MultiPinFeatures field by request type: the matching bit
of the feature bitmask, as the claim words it. -/
def featureFlag (f : MultiPinFeatures) : SettingsRequestType → Bool
  | .change_presets => f.change_presets
  | .change_name => f.change_name
  | .disable_channel => f.disable_channel
  | .change_tv_on_off_detection => f.change_tv_on_off_detection
  | .change_default_position => f.change_default_position
  | .start_calibration => f.start_calibration

/-- Characteristics referenced by the modelled operations (the UUID constants
live in const.py; only their identity matters here). -/
inductive CharacteristicId
  | distance
  | rotation
  | width
  | preset
  | authenticate
  | pin_check
deriving DecidableEq, Repr

/-- BLE-side actions recorded in operation traces. -/
inductive Op
  | connect
  | write (c : CharacteristicId) (data : List Nat)
  | read (c : CharacteristicId)
  | sleep100ms
deriving DecidableEq, Repr

/-- Translation of api.py _handle_disconnect: with a client present it writes
connected := client.is_connected through _update (the platform fires the
disconnect callback only once the client reports not connected) and performs
no BLE operation; with no client it does nothing. -/
def handle_disconnect (d : VogelsMotionMountData)
    (client_is_connected : Option Bool) : VogelsMotionMountData × List Op :=
  match client_is_connected with
  | none => (d, [])
  | some c => ({ d with connected := c }, [])

/-- Possible exceptions of the modelled api.py operations. -/
inductive ApiError
  | ServiceValidationError
  | APISettingsChangeNotStoredError
  | APIAuthenticationError
  | APIConnectionDeviceNotFoundError
deriving DecidableEq, Repr

/-- Result of a modelled api.py operation: the Python return or raise, the
cached VogelsMotionMountData afterwards, and the trace of BLE operations
performed. -/
structure ApiOutcome where
  result : Except ApiError Unit
  data : VogelsMotionMountData
  ops : List Op

/-- Translation of api.py set_tv_width on an established, authenticated
connection (the _connect steps never touch the width field): validate
range(1, 244), write the single width byte, re-read the width characteristic
(_read_width stores readback[0] as the cached width through _update), and
raise APISettingsChangeNotStoredError when the stored value differs from the
request (the _update() before the raise passes no field and changes
nothing). -/
def set_tv_width (d : VogelsMotionMountData) (width : Nat)
    (readback : List Nat) : ApiOutcome :=
  if width < 1 ∨ 244 ≤ width then
    ⟨Except.error .ServiceValidationError, d, []⟩
  else
    let ops := [Op.write .width [width], Op.read .width]
    let d1 := { d with width := some (readback.headD 0) }
    if d1.width ≠ some width then
      ⟨Except.error .APISettingsChangeNotStoredError, d1, ops⟩
    else
      ⟨Except.ok (), d1, ops⟩

/-- Environment of one _connect call: whether the device handle resolves and
whether _authenticate succeeds. -/
structure ConnectEnv where
  device_found : Bool
  auth_ok : Bool
deriving DecidableEq, Repr

/-- Model of api.py _connect invoked with a characteristic payload on an
existing connection: device resolution and authentication may fail, and only
after both succeed is the payload written. -/
def connect_write (d : VogelsMotionMountData) (env : ConnectEnv)
    (c : CharacteristicId) (payload : List Nat) :
    Except ApiError VogelsMotionMountData × List Op :=
  if ¬ env.device_found then
    (Except.error .APIConnectionDeviceNotFoundError, [])
  else if ¬ env.auth_ok then
    (Except.error .APIAuthenticationError, [Op.connect])
  else
    (Except.ok { d with connected := true }, [Op.connect, Op.write c payload])

/-- Translation of api.py set_distance: validate `distance in range(101)`
before anything else, then _connect writes the 2-byte big-endian distance and
requested_distance is updated. -/
def set_distance (d : VogelsMotionMountData) (env : ConnectEnv)
    (distance : Int) : ApiOutcome :=
  if ¬ (0 ≤ distance ∧ distance ≤ 100) then
    ⟨Except.error .ServiceValidationError, d, []⟩
  else
    match connect_write d env .distance (toBytes2BE distance.toNat) with
    | (Except.error e, ops) => ⟨Except.error e, d, ops⟩
    | (Except.ok d1, ops) =>
      ⟨Except.ok (), { d1 with requested_distance := some distance }, ops⟩

/-- Translation of api.py set_rotation: validate `rotation in range(-100, 101)`
before anything else, then _connect writes the 2-byte big-endian signed
rotation and requested_rotation is updated. -/
def set_rotation (d : VogelsMotionMountData) (env : ConnectEnv)
    (rotation : Int) : ApiOutcome :=
  if ¬ (-100 ≤ rotation ∧ rotation ≤ 100) then
    ⟨Except.error .ServiceValidationError, d, []⟩
  else
    match connect_write d env .rotation (toBytes2BESigned rotation) with
    | (Except.error e, ops) => ⟨Except.error e, d, ops⟩
    | (Except.ok d1, ops) =>
      ⟨Except.ok (), { d1 with requested_rotation := some rotation }, ops⟩

theorem land_255_eq_mod (x : Nat) : x &&& 255 = x % 256 := by
  simpa using Nat.and_pow_two_sub_one_eq_mod x 8

theorem shiftRight_8_eq_div (x : Nat) : x >>> 8 = x / 256 := by
  simpa using Nat.shiftRight_eq_div_pow x 8

theorem orFallback_eq_getD_or (a : Option Bool) (c : Bool) :
    orFallback a c = (a.getD false || c) := by
  rcases a with _ | b
  · rfl
  · cases b <;> rfl

theorem bool_le_or_right (x y : Bool) : y ≤ (x || y) := by
  cases x <;> cases y <;> decide

theorem decode_multi_pin_value_roundtrip (b1 b2 b3 b4 b5 b6 : Bool) :
    decode_multi_pin_features (multi_pin_value ⟨b1, b2, b3, b4, b5, b6⟩)
      = ⟨b1, b2, b3, b4, b5, b6⟩ := by
  cases b1 <;> cases b2 <;> cases b3 <;> cases b4 <;> cases b5 <;> cases b6 <;>
    decide

/-- C1: api.py _encode_pin is little-endian with low byte pin % 256 and high
byte pin / 256 % 256, and its Supervisior tier adds 0x40 to the high byte
modulo 256; but client.py _encode_supervisior_pin does not: its + 0x40 is
inert under Python precedence, so at pin 2222 it yields high byte 8 where the
claim requires (8 + 0x40) % 256 = 72. -/
theorem c1_supervisior_pin_encoding_bug :
    (∀ pin : Nat,
      encode_pin pin .Authorized_user = [pin % 256, pin / 256 % 256] ∧
      encode_pin pin .Supervisior
        = [pin % 256, (pin / 256 % 256 + 64) % 256]) ∧
    encode_pin 2222 .Authorized_user = [174, 8] ∧
    encode_pin 2222 .Supervisior = [174, 72] ∧
    encode_supervisior_pin 2222 = [174, 8] := by
  refine ⟨fun pin => ⟨?_, ?_⟩, by decide, by decide, by decide⟩ <;>
    simp [encode_pin, land_255_eq_mod, shiftRight_8_eq_div]

/-- C2: distance and the multi-pin feature bitmask round-trip, but rotation
does not: api.py encodes rotation signed while _handle_rotation_change
decodes int.from_bytes(data, "big") unsigned, so -100 encodes to the payload
[255, 156] which decodes to 65436; the signed preset-path decode recovers
-100, showing the intended signed interpretation. -/
theorem c2_rotation_roundtrip_fails :
    (∀ d : Fin 101, decode_distance (encode_distance d) = d) ∧
    (∀ b1 b2 b3 b4 b5 b6 : Bool,
      decode_multi_pin_features (multi_pin_value ⟨b1, b2, b3, b4, b5, b6⟩)
        = ⟨b1, b2, b3, b4, b5, b6⟩) ∧
    encode_rotation (-100) = [255, 156] ∧
    decode_rotation_notify (encode_rotation (-100)) = 65436 ∧
    fromBytes2BESigned (encode_rotation (-100)) = -100 := by
  exact ⟨by decide, decode_multi_pin_value_roundtrip, by decide, by decide,
    by decide⟩

/-- C3 (amended): a set_tv_width whose read-back differs from the request
raises APISettingsChangeNotStoredError and leaves the cached width equal to
the read-back value — never the attempted value, but not necessarily the
pre-write value. -/
theorem c3_width_mismatch_keeps_readback (d : VogelsMotionMountData)
    (width b : Nat) (readback : List Nat) (h1 : 1 ≤ width) (h2 : width < 244)
    (hr : readback.headD 0 = b) (hb : b ≠ width) :
    set_tv_width d width readback
      = ⟨Except.error .APISettingsChangeNotStoredError,
          { d with width := some b },
          [Op.write .width [width], Op.read .width]⟩ := by
  simp only [set_tv_width, hr]
  rw [if_neg (by omega), if_pos (by simp [hb])]

/-- C3 counterexample: with cached width 50, request 60 and read-back 55, the
failed operation leaves cached width 55, so the claim that the cached field
stays the same as before the write is false. -/
theorem c3_cached_width_changed_counterexample :
    ((set_tv_width { width := some 50 } 60 [55]).data.width
        = ({ width := some 50 } : VogelsMotionMountData).width) = False := by
  simp [set_tv_width]

/-- Witness for the amended C3 theorem at width 60 with read-back 55. -/
theorem c3_width_mismatch_witness :
    set_tv_width { width := some 50 } 60 [55]
      = ⟨Except.error .APISettingsChangeNotStoredError,
          { width := some 55 },
          [Op.write .width [60], Op.read .width]⟩ :=
  c3_width_mismatch_keeps_readback { width := some 50 } 60 55 [55]
    (by decide) (by decide) rfl (by decide)

/-- C9: the disconnect callback sets connected to false, changes no other
field of the cached data, and performs no BLE operation (in particular no
reconnect attempt). -/
theorem c9_handle_disconnect_only_connected (d : VogelsMotionMountData)
    (c : Bool) (hc : c = false) :
    handle_disconnect d (some c) = ({ d with connected := false }, []) := by
  subst hc; rfl

/-- Witness for C9 at the default data. -/
theorem c9_handle_disconnect_witness :
    handle_disconnect {} (some false) = ({ connected := false }, []) :=
  c9_handle_disconnect_only_connected {} false rfl

/-- C10: the bitmask written by set_multi_pin_features has each feature bit
equal to the passed argument (None treated as False) OR-ed with the cached
bit, and therefore never clears a bit that is cached as set. -/
theorem c10_multi_pin_features_or (cached : Option MultiPinFeatures)
    (a1 a2 a3 a4 a5 a6 : Option Bool) :
    decode_multi_pin_features
        (set_multi_pin_features_value cached a1 a2 a3 a4 a5 a6)
      = { change_presets :=
            a1.getD false ||
              (cached.getD defaultMultiPinFeatures).change_presets
        , change_name :=
            a2.getD false ||
              (cached.getD defaultMultiPinFeatures).change_name
        , disable_channel :=
            a3.getD false ||
              (cached.getD defaultMultiPinFeatures).disable_channel
        , change_tv_on_off_detection :=
            a4.getD false ||
              (cached.getD defaultMultiPinFeatures).change_tv_on_off_detection
        , change_default_position :=
            a5.getD false ||
              (cached.getD defaultMultiPinFeatures).change_default_position
        , start_calibration :=
            a6.getD false ||
              (cached.getD defaultMultiPinFeatures).start_calibration } ∧
    (cached.getD defaultMultiPinFeatures).change_presets ≤
      (decode_multi_pin_features
        (set_multi_pin_features_value cached a1 a2 a3 a4 a5 a6)).change_presets ∧
    (cached.getD defaultMultiPinFeatures).change_name ≤
      (decode_multi_pin_features
        (set_multi_pin_features_value cached a1 a2 a3 a4 a5 a6)).change_name ∧
    (cached.getD defaultMultiPinFeatures).disable_channel ≤
      (decode_multi_pin_features
        (set_multi_pin_features_value cached a1 a2 a3 a4 a5 a6)).disable_channel ∧
    (cached.getD defaultMultiPinFeatures).change_tv_on_off_detection ≤
      (decode_multi_pin_features
        (set_multi_pin_features_value cached a1 a2 a3 a4 a5 a6)).change_tv_on_off_detection ∧
    (cached.getD defaultMultiPinFeatures).change_default_position ≤
      (decode_multi_pin_features
        (set_multi_pin_features_value cached a1 a2 a3 a4 a5 a6)).change_default_position ∧
    (cached.getD defaultMultiPinFeatures).start_calibration ≤
      (decode_multi_pin_features
        (set_multi_pin_features_value cached a1 a2 a3 a4 a5 a6)).start_calibration := by
  have hmain :
      decode_multi_pin_features
          (set_multi_pin_features_value cached a1 a2 a3 a4 a5 a6)
        = { change_presets :=
              a1.getD false ||
                (cached.getD defaultMultiPinFeatures).change_presets
          , change_name :=
              a2.getD false ||
                (cached.getD defaultMultiPinFeatures).change_name
          , disable_channel :=
              a3.getD false ||
                (cached.getD defaultMultiPinFeatures).disable_channel
          , change_tv_on_off_detection :=
              a4.getD false ||
                (cached.getD defaultMultiPinFeatures).change_tv_on_off_detection
          , change_default_position :=
              a5.getD false ||
                (cached.getD defaultMultiPinFeatures).change_default_position
          , start_calibration :=
              a6.getD false ||
                (cached.getD defaultMultiPinFeatures).start_calibration } := by
    unfold set_multi_pin_features_value
    rw [decode_multi_pin_value_roundtrip]
    simp [orFallback_eq_getD_or]
  refine ⟨hmain, ?_, ?_, ?_, ?_, ?_, ?_⟩ <;>
    rw [hmain] <;> exact bool_le_or_right _ _

/-- C4: truth table of has_permission — Full grants everything; Control
grants every control-class action, and a settings-class action exactly when
the matching bit of the cached feature bitmask is set; Missing and Wrong
grant nothing. -/
theorem c4_has_permission_truth_table (d : VogelsMotionMountData)
    (a : VogelsMotionMountActionType) (srt : Option SettingsRequestType)
    (t : SettingsRequestType) (f : MultiPinFeatures) :
    (d.auth_type = some .Full → has_permission d a srt = true) ∧
    (d.auth_type = some .Control → has_permission d .Control srt = true) ∧
    (d.auth_type = some .Control → d.multi_pin_features = some f →
      has_permission d .Settings (some t) = featureFlag f t) ∧
    (d.auth_type = some .Missing → has_permission d a srt = false) ∧
    (d.auth_type = some .Wrong → has_permission d a srt = false) := by
  refine ⟨?_, ?_, ?_, ?_, ?_⟩
  · intro h; simp [has_permission, h]
  · intro h; simp [has_permission, h]
  · intro h hf; cases t <;> simp [has_permission, h, hf, featureFlag]
  · intro h; simp [has_permission, h]
  · intro h; simp [has_permission, h]

/-- Witness instantiating every branch of the C4 theorem. -/
theorem c4_has_permission_witness :
    has_permission { auth_type := some .Full } .Settings none = true ∧
    has_permission { auth_type := some .Control } .Control none = true ∧
    has_permission
        { auth_type := some .Control
        , multi_pin_features := some ⟨false, true, false, false, false, false⟩ }
        .Settings (some .change_name)
      = featureFlag ⟨false, true, false, false, false, false⟩ .change_name ∧
    has_permission { auth_type := some .Missing } .Control none = false ∧
    has_permission { auth_type := some .Wrong } .Settings (some .change_name)
      = false := by
  refine ⟨?_, ?_, ?_, ?_, ?_⟩
  · exact (c4_has_permission_truth_table { auth_type := some .Full } .Settings
      none .change_name defaultMultiPinFeatures).1 rfl
  · exact (c4_has_permission_truth_table { auth_type := some .Control }
      .Control none .change_name defaultMultiPinFeatures).2.1 rfl
  · exact (c4_has_permission_truth_table
      { auth_type := some .Control
      , multi_pin_features := some ⟨false, true, false, false, false, false⟩ }
      .Settings (some .change_name) .change_name
      ⟨false, true, false, false, false, false⟩).2.2.1 rfl rfl
  · exact (c4_has_permission_truth_table { auth_type := some .Missing }
      .Control none .change_name defaultMultiPinFeatures).2.2.2.1 rfl
  · exact (c4_has_permission_truth_table { auth_type := some .Wrong }
      .Settings (some .change_name) .change_name
      defaultMultiPinFeatures).2.2.2.2 rfl

/-- C5: _check_authentication yields Full on a payload starting with two 0x80
bytes, Control on a payload starting with a single 0x80 byte, and for any
other (4-byte, as struct.unpack requires) payload decodes it as a
little-endian number, sets the cooldown to max(0, 3*code - 10) seconds and
reports not authenticated. -/
theorem c5_check_authentication_cases (payload : List Nat)
    (b0 b1 b2 b3 : Nat) :
    (payload.take 2 = [128, 128] →
      check_authentication payload = some ⟨true, some .Full, none⟩) ∧
    (payload.take 2 ≠ [128, 128] → payload.take 1 = [128] →
      check_authentication payload = some ⟨true, some .Control, none⟩) ∧
    (b0 ≠ 128 →
      check_authentication [b0, b1, b2, b3]
        = some ⟨false, none,
            some (max 0
              (3 * ((b0 + 256 * b1 + 65536 * b2 + 16777216 * b3 : Nat) : Int)
                - 10))⟩) := by
  refine ⟨?_, ?_, ?_⟩
  · intro h; simp [check_authentication, h]
  · intro h1 h2; simp [check_authentication, h1, h2]
  · intro h
    have ht2 : ([b0, b1, b2, b3] : List Nat).take 2 ≠ [128, 128] := by
      simp [h]
    have ht1 : ([b0, b1, b2, b3] : List Nat).take 1 ≠ [128] := by
      simp [h]
    simp [check_authentication, ht2, ht1, unpackLEU32, h]

/-- Witness instantiating every branch of the C5 theorem; code 5 gives
cooldown max(0, 15 - 10) = 5. -/
theorem c5_check_authentication_witness :
    check_authentication [128, 128, 0, 0] = some ⟨true, some .Full, none⟩ ∧
    check_authentication [128, 0, 0, 0] = some ⟨true, some .Control, none⟩ ∧
    check_authentication [5, 0, 0, 0] = some ⟨false, none, some 5⟩ := by
  refine ⟨?_, ?_, ?_⟩
  · exact (c5_check_authentication_cases [128, 128, 0, 0] 0 0 0 0).1 (by decide)
  · exact (c5_check_authentication_cases [128, 0, 0, 0] 0 0 0 0).2.1
      (by decide) (by decide)
  · have h := (c5_check_authentication_cases [5, 0, 0, 0] 5 0 0 0).2.2
      (by decide)
    norm_num at h
    exact h

/-- C6: out-of-range rotation and distance requests raise
ServiceValidationError with no BLE operation performed and no state change. -/
theorem c6_validation_before_io (d : VogelsMotionMountData) (env : ConnectEnv)
    (r dist : Int) :
    ((r < -100 ∨ 100 < r) →
      set_rotation d env r = ⟨Except.error .ServiceValidationError, d, []⟩) ∧
    ((dist < 0 ∨ 100 < dist) →
      set_distance d env dist
        = ⟨Except.error .ServiceValidationError, d, []⟩) := by
  constructor
  · intro h; unfold set_rotation; rw [if_pos (by omega)]
  · intro h; unfold set_distance; rw [if_pos (by omega)]

/-- Witness for C6 at rotation 150 and distance 150. -/
theorem c6_validation_witness :
    set_rotation {} ⟨true, true⟩ 150
      = ⟨Except.error .ServiceValidationError, {}, []⟩ ∧
    set_distance {} ⟨true, true⟩ 150
      = ⟨Except.error .ServiceValidationError, {}, []⟩ := by
  constructor
  · exact (c6_validation_before_io {} ⟨true, true⟩ 150 150).1 (by decide)
  · exact (c6_validation_before_io {} ⟨true, true⟩ 150 150).2 (by decide)

/-- C7: a combined preset payload whose first (occupied) byte is 0 decodes to
an unoccupied slot whatever the remaining bytes of either payload are. -/
theorem c7_unoccupied_preset (preset_index : Nat) (data1 data2 : List Nat)
    (h : (data1 ++ data2).head? = some 0) :
    decode_preset preset_index data1 data2 = none := by
  have hm : ∃ rest, data1 ++ data2 = 0 :: rest := by
    rcases hl : data1 ++ data2 with _ | ⟨b, rest⟩
    · simp [hl] at h
    · rw [hl] at h
      simp at h
      exact ⟨rest, by rw [h]⟩
  rcases hm with ⟨rest, hrest⟩
  simp [decode_preset, hrest]

/-- Witness for C7 with arbitrary junk in the remaining bytes. -/
theorem c7_unoccupied_preset_witness :
    decode_preset 3 [0, 9, 9] [7, 7, 7] = none :=
  c7_unoccupied_preset 3 [0, 9, 9] [7, 7, 7] rfl

theorem authGo_eq (outcomes : Nat → Bool) :
    authenticateAsGo outcomes [0, 1, 2, 3]
      = if outcomes 0 then (true, 1, 0)
        else if outcomes 1 then (true, 2, 1)
        else if outcomes 2 then (true, 3, 2)
        else if outcomes 3 then (true, 4, 3)
        else (false, 4, 3) := by
  cases h0 : outcomes 0 <;> cases h1 : outcomes 1 <;> cases h2 : outcomes 2 <;>
      cases h3 : outcomes 3 <;>
    simp [authenticateAsGo, h0, h1, h2, h3]

/-- C8: _authenticate_as performs at most 4 _check_authentication attempts,
with exactly one 100ms sleep between consecutive attempts (sleeps + 1 =
checks), succeeds exactly when one of the 4 polled outcomes is positive,
stops at the first success, records the tier as remembered on success, and
reports failure only after all 4 checks. -/
theorem c8_authenticate_as_bounded (p : Nat) (t : VogelsMotionMountPinType)
    (outcomes : Nat → Bool) :
    (authenticate_as (some p) t outcomes).checks ≤ 4 ∧
    (authenticate_as (some p) t outcomes).sleeps + 1
      = (authenticate_as (some p) t outcomes).checks ∧
    (authenticate_as (some p) t outcomes).success
      = (outcomes 0 || outcomes 1 || outcomes 2 || outcomes 3) ∧
    (∀ i, i < 4 → outcomes i = true →
      (authenticate_as (some p) t outcomes).checks ≤ i + 1) ∧
    ((authenticate_as (some p) t outcomes).success = true →
      (authenticate_as (some p) t outcomes).stored_pin_type = some t) ∧
    ((authenticate_as (some p) t outcomes).success = false →
      (authenticate_as (some p) t outcomes).checks = 4) := by
  cases h0 : outcomes 0 <;> cases h1 : outcomes 1 <;> cases h2 : outcomes 2 <;>
      cases h3 : outcomes 3 <;>
    refine ⟨?_, ?_, ?_, ?_, ?_, ?_⟩ <;>
    simp [authenticate_as, authGo_eq, h0, h1, h2, h3] <;>
    first
      | omega
      | (intro i hi hti; interval_cases i <;> simp_all)

/-- Witness for C8: with the device answering positively on the second poll,
authentication stops after 2 checks and remembers the tier. -/
theorem c8_authenticate_as_witness :
    (authenticate_as (some 2222) .Supervisior (fun i => i == 1)).checks ≤ 2 ∧
    (authenticate_as (some 2222) .Supervisior
        (fun i => i == 1)).stored_pin_type = some .Supervisior := by
  have h := c8_authenticate_as_bounded 2222 .Supervisior (fun i => i == 1)
  exact ⟨h.2.2.2.1 1 (by decide) (by decide), h.2.2.2.2.1 (by decide)⟩

/-- Witness instantiating the C10 theorem: a cached change_presets bit stays
set although False is passed for it. -/
theorem c10_multi_pin_features_witness :
    decode_multi_pin_features
        (set_multi_pin_features_value
          (some ⟨true, false, false, false, false, false⟩)
          (some false) none (some true) none none none)
      = ⟨true, false, true, false, false, false⟩ := by
  have h :=
    (c10_multi_pin_features_or
      (some ⟨true, false, false, false, false, false⟩)
      (some false) none (some true) none none none).1
  simpa using h

end VogelsMotionMount
